import Mathlib

/-!
Verification of the time-based resource scheduling filters of this
repository: the schedule parser and off/on-hours decision core in
`c7n/filters/offhours.py`, and the business-hours adapter in
`c7n/filters/businesshours.py`.

The Python code is shallowly embedded: strings are Lean `String`s,
times of day are minutes since midnight (`Nat`), fallible operations
return `Option`/`Except`, and raised exceptions that escape a function
are modelled as `none`/`Except.error`.  String splitting is implemented
with a fuel-based structural recursion so that every definition reduces
inside the kernel.
-/

/-- Python `str.split(sep)` for a non-empty separator, on character
lists, with enough fuel to consume the whole input (each step consumes
at least one character). -/
def split_go (sep : List Char) : Nat → List Char → List Char → List (List Char)
  | _, acc, [] => [acc.reverse]
  | 0, acc, rest => [acc.reverse ++ rest]
  | Nat.succ fuel, acc, c :: cs =>
    if sep.isPrefixOf (c :: cs) then
      acc.reverse :: split_go sep fuel [] ((c :: cs).drop sep.length)
    else
      split_go sep fuel (c :: acc) cs

/-- Python `s.split(sep)` (non-empty `sep`): e.g. splitting `"a;;b"` on
`";"` yields `["a", "", "b"]`, and splitting `""` yields `[""]`. -/
def strSplitOn (sep : String) (s : String) : List String :=
  (split_go sep.data (s.data.length + 1) [] s.data).map (fun l => String.mk l)

/-- Python 2 `s.translate(None, deletechars)`: remove every character of
`remove` from `s`. -/
def stripChars (remove : List Char) (s : String) : String :=
  String.mk (s.data.filter (fun c => !(remove.contains c)))

/-- Python `str.isdigit` on the ASCII strings this code handles: true
iff the string is non-empty and all characters are decimal digits. -/
def pyIsDigit (s : String) : Bool :=
  !s.data.isEmpty && s.data.all (fun c => c.isDigit)

/-- Python `int(s)` on a string of decimal digits. -/
def digitsToNat (s : String) : Nat :=
  s.data.foldl (fun a c => a * 10 + (c.toNat - 48)) 0

/-- Python `';'.join(parts)`. -/
def joinSemis : List String → String
  | [] => ("")
  | [x] => x
  | x :: xs => x ++ (";") ++ joinSemis xs

/-- Python dict assignment `d[k] = v` on an insertion-ordered
association list: an existing key keeps its position and gets the new
value, a new key is appended. -/
def dictSet {α β : Type} [BEq α] (d : List (α × β)) (k : α) (v : β) : List (α × β) :=
  if (d.lookup k).isSome then
    d.map (fun p => if p.1 == k then (k, v) else p)
  else
    d ++ [(k, v)]

/-- ScheduleParser.DAY_MAP (offhours.py line 578). -/
def DAY_MAP : List (String × Nat) :=
  [(("m"), 0), (("t"), 1), (("w"), 2), (("h"), 3), (("f"), 4), (("s"), 5), (("u"), 6)]

/-- Python `DAY_MAP.get(s)`. -/
def dayMap (s : String) : Option Nat := DAY_MAP.lookup s

/-- ScheduleParser.expand_day_range (offhours.py lines 701-712).  In
Python 2, `range(a, 7) + range(b + 1)` concatenates the two lists. -/
def expand_day_range (days : String) : Option (List Nat) :=
  match dayMap days with
  | some d => some [d]
  | none =>
    match (strSplitOn ("-") days).filterMap dayMap with
    | [a, b] =>
      some (if a > b then List.range' a (7 - a) ++ List.range (b + 1)
            else List.range' (min a b) (max a b + 1 - min a b))
    | _ => none

example : strSplitOn (";") ("a;;b") = [("a"), (""), ("b")] := by decide
example : strSplitOn (",(") ("(m-f,21),(u,18,30)") = [("(m-f,21)"), ("u,18,30)")] := by decide
example : expand_day_range ("m-f") = some [0, 1, 2, 3, 4] := by decide
example : expand_day_range ("f-m") = some [4, 5, 6, 0] := by decide
example : expand_day_range ("u") = some [6] := by decide
example : expand_day_range ("m-x-f") = some [0, 1, 2, 3, 4] := by decide
example : expand_day_range ("mf") = none := by decide

/-- A toggle parsed from one `(days, hour[, minute])` group: the
per-group dict `{DAYS: days, HOUR: hour, MINUTE: minute}` built by
ScheduleParser.parse_resource_schedule (offhours.py line 698). -/
structure Toggle where
  days : List Nat
  hour : Nat
  minute : Nat
deriving DecidableEq, Repr

/-- ScheduleParser.VALID_HOURS (offhours.py line 579). -/
def VALID_HOURS : List Nat := List.range 24

/-- ScheduleParser.VALID_MINUTES (offhours.py line 580). -/
def VALID_MINUTES : List Nat := List.range 60

/-- Body of the per-group loop of ScheduleParser.parse_resource_schedule
(offhours.py lines 675-698), for one expression `e`; `none` is the
`return None` of the enclosing function.  The Python guard
`3 > tokens_count < 2` is a chained comparison and means
`3 > tokens_count and tokens_count < 2`. -/
def parse_expr (e : String) : Option Toggle :=
  let tokens := strSplitOn (",") (stripChars ['(', ')'] e)
  let tokens_count := tokens.length
  if 3 > tokens_count ∧ tokens_count < 2 then none
  else
    match (if tokens_count = 3 then
            (if pyIsDigit (tokens.getD 2 ("")) then some (digitsToNat (tokens.getD 2 (""))) else none)
           else some 0) with
    | none => none
    | some minute =>
      if !(pyIsDigit (tokens.getD 1 (""))) then none
      else
        let hour := digitsToNat (tokens.getD 1 (""))
        if hour ∉ VALID_HOURS then none
        else if minute ∉ VALID_MINUTES then none
        else
          match expand_day_range (tokens.getD 0 ("")) with
          | none => none
          | some days => if days.isEmpty then none else some (Toggle.mk days hour minute)

/-- ScheduleParser.parse_resource_schedule (offhours.py lines 672-699):
strip brackets, split the lexeme into groups on `",("`, parse each group
in order, failing the whole lexeme if any group fails. -/
def parse_resource_schedule (lexeme : String) : Option (List Toggle) :=
  (strSplitOn (",(") (stripChars ['[', ']'] lexeme)).mapM parse_expr

example : parse_resource_schedule ("(m-f,21),(u,18,30)") =
    some [Toggle.mk [0, 1, 2, 3, 4] 21 0, Toggle.mk [6] 18 30] := by decide
example : parse_resource_schedule ("(m-f)") = none := by decide
example : parse_resource_schedule ("(m,10,30,45)") = some [Toggle.mk [0] 10 0] := by decide
example : parse_resource_schedule ("(m-f,24)") = none := by decide

/-- ScheduleParser.raw_data (offhours.py lines 586-604): split the tag
value on spaces then on semicolons, keep the `key=value` pieces as an
insertion-ordered dict. -/
def raw_data (tag_value : String) : List (String × String) :=
  let pieces := (strSplitOn (" ") tag_value).flatMap (fun p => strSplitOn (";") p)
  pieces.foldl
    (fun data piece =>
      match strSplitOn ("=") piece with
      | [key, value] => dictSet data key value
      | _ => data)
    []

/-- ScheduleParser.keys_are_valid (offhours.py lines 606-611). -/
def keys_are_valid (tag_value : String) : Bool :=
  (raw_data tag_value).all (fun p => p.1 == ("on") || p.1 == ("off") || p.1 == ("tz"))

/-- ScheduleParser.has_resource_schedule (offhours.py lines 666-670). -/
def has_resource_schedule (tag_value time_type : String) : Bool :=
  ((raw_data tag_value).lookup time_type).isSome

/-- Value of one key of a parsed schedule dict: `on`/`off` hold toggle
lists, `tz` holds the zone string verbatim. -/
inductive SVal where
  | toggles (ts : List Toggle)
  | str (s : String)
deriving DecidableEq, Repr

/-- The schedule dict returned by ScheduleParser.parse. -/
def Sched := List (String × SVal)
deriving DecidableEq, Repr

/-- The piece loop of ScheduleParser.parse (offhours.py lines 645-656):
each piece must be `key=value`; a non-`tz` value goes through
parse_resource_schedule, whose failure fails the whole parse. -/
def sp_parse_pieces : List String → Sched → Option Sched
  | [], schedule => some schedule
  | piece :: rest, schedule =>
    match strSplitOn ("=") piece with
    | [key, value] =>
      if key != ("tz") then
        match parse_resource_schedule value with
        | none => none
        | some ts => sp_parse_pieces rest (dictSet schedule key (SVal.toggles ts))
      else sp_parse_pieces rest (dictSet schedule key (SVal.str value))
    | _ => none

/-- Python truthiness of `schedule.get(TZ)` (offhours.py line 659): the
key is present and its value non-empty. -/
def sched_tz_truthy (schedule : Sched) : Bool :=
  match List.lookup ("tz") schedule with
  | some (SVal.str t) => t != ("")
  | some (SVal.toggles ts) => !ts.isEmpty
  | none => false

/-- ScheduleParser.parse (offhours.py lines 635-664), with the
process-local cache elided: the cache maps each input to the result of
this same computation, so the cached function is extensionally this
one.  `default_tz` is `self.default_schedule[TZ]`. -/
def sp_parse (default_tz : String) (tag_value : String) : Option Sched :=
  if !(keys_are_valid tag_value) then none
  else
    match sp_parse_pieces (strSplitOn (";") tag_value) [] with
    | none => none
    | some schedule =>
      some (if sched_tz_truthy schedule then schedule
            else dictSet schedule ("tz") (SVal.str default_tz))

example : sp_parse ("et") ("on=(m-f,7);off=(m-f,19);tz=pt") =
    some [(("on"), SVal.toggles [Toggle.mk [0, 1, 2, 3, 4] 7 0]),
          (("off"), SVal.toggles [Toggle.mk [0, 1, 2, 3, 4] 19 0]),
          (("tz"), SVal.str ("pt"))] := by decide
example : sp_parse ("et") ("on=(m-f)") = none := by decide
example : sp_parse ("et") ("on=(m,10,30,45)") =
    some [(("on"), SVal.toggles [Toggle.mk [0] 10 0]), (("tz"), SVal.str ("et"))] := by decide
example : sp_parse ("et") ("bad=(m-f,7)") = none := by decide

/-- One entry of the per-weekday range list: the dicts built by
ScheduleParser.parse_toggles hold a `start` and/or an `end` key (`end`
is a Lean keyword, so the field is named `stop`).  A missing key is
`none`; reading it raises KeyError in Python. -/
structure RangeEntry where
  start : Option Nat
  stop : Option Nat
deriving DecidableEq, Repr

/-- The ranged schedule: a `defaultdict(list)` keyed by weekday
(offhours.py line 630), as an insertion-ordered association list. -/
def RV := List (Nat × List RangeEntry)
deriving DecidableEq, Repr

/-- Read `results[day]` of the defaultdict without mutating: absent keys
read as the empty list. -/
def rvGet (rv : RV) (day : Nat) : List RangeEntry :=
  (List.lookup day rv).getD []

/-- `datetime.datetime.strptime(toggle_time, "%H:%M").time()` where
`toggle_time` is `"%d:%d" % (hour, minute)` (offhours.py lines
616-620): parses iff the hour is 0..23 and the minute 0..59, and the
resulting time of day is modelled as minutes since midnight.  Out of
range values raise ValueError, modelled as `none`. -/
def strptimeHM (hour minute : Nat) : Option Nat :=
  if hour < 24 ∧ minute < 60 then some (hour * 60 + minute) else none

/-- The branch of ScheduleParser.parse_toggles on one day
(offhours.py lines 617-624): when the day's list is empty (which after
the defaultdict access also covers the `not results` case, since an
empty dict reads every day as `[]`), append a fresh one-key dict;
otherwise set the key on every existing dict of that day. -/
def upd_entries (toggle_is_start : Bool) (t : Nat) (es : List RangeEntry) : List RangeEntry :=
  if es.isEmpty then
    [if toggle_is_start then RangeEntry.mk (some t) none else RangeEntry.mk none (some t)]
  else
    es.map (fun d =>
      if toggle_is_start then RangeEntry.mk (some t) d.stop else RangeEntry.mk d.start (some t))

/-- Inner loop of ScheduleParser.parse_toggles over `toggle[DAYS]`. -/
def parse_toggles_days (toggle_is_start : Bool) (hour minute : Nat) :
    List Nat → RV → Option RV
  | [], rv => some rv
  | day :: rest, rv =>
    match strptimeHM hour minute with
    | none => none
    | some t =>
      parse_toggles_days toggle_is_start hour minute rest
        (dictSet rv day (upd_entries toggle_is_start t (rvGet rv day)))

/-- ScheduleParser.parse_toggles (offhours.py lines 613-624), with
`toggle_is_start` true for RANGE_START (`on` toggles) and false for
RANGE_END (`off` toggles). -/
def parse_toggles (toggle_is_start : Bool) : List Toggle → RV → Option RV
  | [], rv => some rv
  | tog :: rest, rv =>
    match parse_toggles_days toggle_is_start tog.hour tog.minute tog.days rv with
    | none => none
    | some rv2 => parse_toggles toggle_is_start rest rv2

/-- ScheduleParser.get_ranges (offhours.py lines 626-633) applied to the
`on` and `off` toggle lists of the schedule: `on` toggles contribute
range starts first, then `off` toggles contribute range ends. -/
def get_ranges (onT offT : List Toggle) : Option RV := do
  let rv ← parse_toggles true onT []
  parse_toggles false offT rv

example : get_ranges [Toggle.mk [0, 1] 7 0] [Toggle.mk [0, 1] 19 0] =
    some [(0, [RangeEntry.mk (some 420) (some 1140)]),
          (1, [RangeEntry.mk (some 420) (some 1140)])] := by decide
example : get_ranges [] [Toggle.mk [2] 19 0] =
    some [(2, [RangeEntry.mk none (some 1140)])] := by decide

/-- Time.is_time_in_time_period (offhours.py lines 385-389); times of
day are minutes since midnight, matching the lexicographic order of
`datetime.time`. -/
def is_time_in_time_period (start_time end_time qry_time : Nat) : Bool :=
  if start_time < end_time then
    decide (start_time ≤ qry_time) && decide (qry_time < end_time)
  else
    decide (qry_time ≥ start_time) || decide (qry_time < end_time)

/-- The local wall-clock instant the filter evaluates against: its
weekday (Monday = 0) and its time of day in minutes, seconds already
zeroed by `replace(second=0, microsecond=0)`. -/
structure Now where
  weekday : Nat
  time : Nat
deriving DecidableEq, Repr

/-- The entry loop of Time.match_range (offhours.py lines 394-397):
first entry containing the query time wins; an entry missing its
`start` or `end` key raises KeyError (`none`). -/
def match_entries (q : Nat) : List RangeEntry → Option Bool
  | [] => some false
  | r :: rs =>
    match r.start, r.stop with
    | some s, some e => if is_time_in_time_period s e q then some true else match_entries q rs
    | _, _ => none

/-- Time.match_range (offhours.py lines 391-397). -/
def match_range (now : Now) (rv : RV) : Option Bool :=
  if (List.lookup now.weekday rv).isNone then some false
  else match_entries now.time (rvGet rv now.weekday)

example : match_range (Now.mk 0 540) [(0, [RangeEntry.mk (some 420) (some 1140)])] =
    some true := by decide
example : match_range (Now.mk 5 540) [(0, [RangeEntry.mk (some 420) (some 1140)])] =
    some false := by decide
example : match_range (Now.mk 2 540) [(2, [RangeEntry.mk none (some 1140)])] = none := by decide

/-- Time.TZ_ALIASES (offhours.py lines 244-267). -/
def TZ_ALIASES : List (String × String) :=
  [(("pdt"), ("America/Los_Angeles")),
   (("pt"), ("America/Los_Angeles")),
   (("pst"), ("America/Los_Angeles")),
   (("est"), ("America/New_York")),
   (("edt"), ("America/New_York")),
   (("et"), ("America/New_York")),
   (("cst"), ("America/Chicago")),
   (("cdt"), ("America/Chicago")),
   (("ct"), ("America/Chicago")),
   (("mt"), ("America/Denver")),
   (("gmt"), ("Etc/GMT")),
   (("gt"), ("Etc/GMT")),
   (("bst"), ("Europe/London")),
   (("ist"), ("Europe/Dublin")),
   (("cet"), ("Europe/Berlin")),
   (("it"), ("Asia/Kolkata")),
   (("jst"), ("Asia/Tokyo")),
   (("kst"), ("Asia/Seoul")),
   (("sgt"), ("Asia/Singapore")),
   (("aet"), ("Australia/Sydney")),
   (("brt"), ("America/Sao_Paulo"))]

/-- The IANA zone names the alias table targets. -/
def IANA_ZONES : List String :=
  [("America/Los_Angeles"), ("America/New_York"), ("America/Chicago"),
   ("America/Denver"), ("Etc/GMT"), ("Europe/London"), ("Europe/Dublin"),
   ("Europe/Berlin"), ("Asia/Kolkata"), ("Asia/Tokyo"), ("Asia/Seoul"),
   ("Asia/Singapore"), ("Australia/Sydney"), ("America/Sao_Paulo")]

/-- External collaborator `dateutil.zoneinfo.gettz`, modelled as the
zoneinfo database restricted to the zones the alias table names: a
known IANA name resolves to itself, anything else to nothing.  No claim
depends on zones outside this table. -/
def gettz (name : String) : Option String :=
  if IANA_ZONES.contains name then some name else none

/-- Time.get_tz (offhours.py lines 433-435): alias lookup with the raw
key as fallback, then the zoneinfo lookup. -/
def get_tz (tz : String) : Option String :=
  gettz ((List.lookup tz TZ_ALIASES).getD tz)

example : get_tz ("pt") = some ("America/Los_Angeles") := by decide
example : get_tz ("America/New_York") = some ("America/New_York") := by decide
example : get_tz ("xyz") = none := by decide

/-- Read `schedule[TZ]` expecting a zone string: a missing key raises
KeyError and a toggle-list value makes the subsequent alias lookup
raise TypeError, both modelled as `none` (an escaping exception). -/
def sdGetStr (schedule : Sched) (k : String) : Option String :=
  match List.lookup k schedule with
  | some (SVal.str t) => some t
  | _ => none

/-- Read `schedule[key]` expecting a toggle list: a missing key raises
KeyError in get_ranges and a string value makes parse_toggles raise
TypeError, both modelled as `none`. -/
def sdGetToggles (schedule : Sched) (k : String) : Option (List Toggle) :=
  match List.lookup k schedule with
  | some (SVal.toggles ts) => some ts
  | _ => none

/-- Tail of Time.process_resource_schedule (offhours.py lines 378-383):
build the range view, test membership of `now`, and return the match
for time_type `on` and its negation otherwise. -/
def process_schedule_outcome (time_type : String) (onT offT : List Toggle) (now : Now) :
    Option Bool := do
  let ranged_schedule ← get_ranges onT offT
  let matched_range ← match_range now ranged_schedule
  pure (if time_type == ("on") then matched_range else !matched_range)

/-- Time.process_resource_schedule (offhours.py lines 343-383).
`clock` is the ambient wall clock: it maps a resolved zone name to the
zone-local `now` (already truncated to the minute).  The result is
`some (match, parse_error_appended)` for a normal return, `none` for an
exception escaping to the caller. -/
def time_process_resource_schedule (time_type : String) (default_schedule : Sched)
    (default_tz : String) (clock : String → Now) (value0 : String) :
    Option (Bool × Bool) :=
  let value := joinSemis ((strSplitOn (";") value0).filter (fun p => p != ("")))
  let schedule? :=
    if has_resource_schedule value time_type then sp_parse default_tz value
    else if keys_are_valid value then
      match (raw_data value).lookup ("tz") with
      | some tzv => some (dictSet default_schedule ("tz") (SVal.str tzv))
      | none => some default_schedule
    else none
  match schedule? with
  | none => some (false, true)
  | some schedule =>
    match sdGetStr schedule ("tz") with
    | none => none
    | some tzkey =>
      match get_tz tzkey with
      | none => some (false, true)
      | some zone =>
        let now := clock zone
        match sdGetToggles schedule ("on"), sdGetToggles schedule ("off") with
        | some onT, some offT =>
          (process_schedule_outcome time_type onT offT now).map (fun r => (r, false))
        | _, _ => none

/-- Observable effect of one Time.__call__ on a resource: the boolean
filter result and whether each accumulator (`opted_out`,
`enabled_count`, `parse_errors`) received this resource. -/
structure CallOutcome where
  result : Bool
  opted_out_inc : Bool
  enabled_inc : Bool
  parse_error_inc : Bool
deriving DecidableEq, Repr

/-- Time.__call__ after the tag value has been determined (offhours.py
lines 329-341): the `off` sentinel opts the resource out, everything
else counts as enabled and is evaluated, with any exception from the
evaluation (`prs value = none`) logged and absorbed as no-match. -/
def time_call_tagged (prs : String → Option (Bool × Bool)) (value : String) : CallOutcome :=
  if value == ("off") then CallOutcome.mk false true false false
  else
    match prs value with
    | some (r, pe) => CallOutcome.mk r false true pe
    | none => CallOutcome.mk false false true false

/-- Time.__call__ (offhours.py lines 313-341).  `value?` is the result
of get_tag_value (`none` when the tag is absent, i.e. Python `False`);
`prs` is the per-variant process_resource_schedule. -/
def time_call (opt_out : Bool) (prs : String → Option (Bool × Bool))
    (value? : Option String) : CallOutcome :=
  match value? with
  | none => if !opt_out then CallOutcome.mk false false false false else time_call_tagged prs ("")
  | some v => time_call_tagged prs v

/-- Time.__call__ of an OnHour/OffHour filter, wired to the core
Time.process_resource_schedule. -/
def time_filter_call (time_type : String) (opt_out : Bool) (default_schedule : Sched)
    (default_tz : String) (clock : String → Now) (value? : Option String) : CallOutcome :=
  time_call opt_out
    (time_process_resource_schedule time_type default_schedule default_tz clock) value?

/-- BaseHour.get_time_struct (offhours.py lines 462-474) for a
configured hour and minute. -/
def get_time_struct (hour minute : Nat) (weekends_only weekends : Bool) : List Toggle :=
  [Toggle.mk (if weekends_only then [4] else if weekends then List.range 5 else List.range 7)
    hour minute]

/-- BaseHour.get_default_schedule (offhours.py lines 476-480) for an
OnHour filter left at its defaults: onhour 7, offhour 19, weekends
true, default_tz `et`. -/
def onhour_default_schedule : Sched :=
  [(("tz"), SVal.str ("et")),
   (("on"), SVal.toggles (get_time_struct 7 0 false true)),
   (("off"), SVal.toggles (get_time_struct 19 0 false true))]

/-- A deterministic clock: Wednesday 09:00 in every zone. -/
def wednesday_nine_clock : String → Now := fun _ => Now.mk 2 540

example : time_filter_call ("on") true onhour_default_schedule ("et") wednesday_nine_clock
    (some ("")) = CallOutcome.mk true false true false := by decide
example : time_filter_call ("off") true onhour_default_schedule ("et") wednesday_nine_clock
    (some ("")) = CallOutcome.mk false false true false := by decide
example : time_filter_call ("on") true onhour_default_schedule ("et") wednesday_nine_clock
    (some ("tz=xyz")) = CallOutcome.mk false false true true := by decide

/-- Exception kinds that BusinessHours.parse can raise or propagate. -/
inductive PyExn where
  | indexError
  | filterValidationError
  | attributeError
deriving DecidableEq, Repr

/-- The `namedtuple('BHParsed', [ONHOUR, OFFHOUR, TZ])` return type
documented by BusinessHours.parse (businesshours.py line 130). -/
structure BHParsed where
  onhour : Nat
  offhour : Nat
  tz : String
deriving DecidableEq, Repr

/-- Python `s[i]` on a string: IndexError when out of range. -/
def pyCharAt (s : String) (i : Nat) : Except PyExn Char :=
  match s.data.get? i with
  | some c => Except.ok c
  | none => Except.error PyExn.indexError

/-- One element of the comprehension
`[(s[0], s[1].lower()) for s in tag_value.split(" ")]`
(businesshours.py line 134): the pair of the FIRST TWO CHARACTERS of
the piece, not the piece and its neighbour. -/
def bh_pair (s : String) : Except PyExn (Char × Char) := do
  let c0 ← pyCharAt s 0
  let c1 ← pyCharAt s 1
  pure (c0, c1.toLower)

/-- `bh_range.split("-")` (businesshours.py line 135): `bh_range` is the
(Char × Char) pair produced by the comprehension, and a Python tuple
has no `split` method, so this raises AttributeError unconditionally. -/
def tuple_split_dash (_bh_range : Char × Char) : Except PyExn BHParsed :=
  Except.error PyExn.attributeError

/-- BusinessHours.parse (businesshours.py lines 121-143).  The
comprehension is evaluated first (IndexError on any piece shorter than
two characters escapes uncaught); unpacking into `bh_range, bh_tz`
raises ValueError unless exactly two pieces result, which the
`except ValueError` arm converts to FilterValidationError; otherwise
`bh_range.split("-")` raises AttributeError, which is not caught. -/
def bh_parse (tag_value : String) : Except PyExn BHParsed := do
  let pairs ← (strSplitOn (" ") tag_value).mapM bh_pair
  match pairs with
  | [bh_range, _bh_tz] => tuple_split_dash bh_range
  | _ => Except.error PyExn.filterValidationError

/-- BusinessHours.get_offhours_tags (businesshours.py lines 90-97). -/
def get_offhours_tags : List String := []

/-- BusinessHours.process_resource_schedule (businesshours.py lines
78-88): parse the tag value (exceptions propagate), fetch the unused
offhours tags, and return False unconditionally — the rewrite and
delegation to the core are commented out in the source. -/
def bh_process_resource_schedule (value : String) : Except PyExn Bool := do
  let _bh_parsed ← bh_parse value
  let _offhours_tags := get_offhours_tags
  pure false

/-- BusinessHours.process_resource_schedule in the shape Time.__call__
consumes: `none` for an escaping exception. -/
def bh_prs (value : String) : Option (Bool × Bool) :=
  match bh_process_resource_schedule value with
  | Except.ok r => some (r, false)
  | Except.error _ => none

/-- Time.__call__ of the BusinessHours filter (time_type `on`,
opt-out defaulting to true per businesshours.py line 57), dispatching
to the overridden process_resource_schedule. -/
def businesshours_call (opt_out : Bool) (value? : Option String) : CallOutcome :=
  time_call opt_out bh_prs value?

deriving instance DecidableEq for Except

example : bh_parse ("8:00-18:00 pt") = Except.error PyExn.attributeError := by decide
example : bh_parse ("8:00-18:00") = Except.error PyExn.filterValidationError := by decide
example : bh_parse ("a b") = Except.error PyExn.indexError := by decide
example : businesshours_call true (some ("8:00-18:00 pt")) =
    CallOutcome.mk false false true false := by decide

/-- The membership predicate exactly as the specification words it:
if `start < end` then `start <= q < end`, else (crossing midnight)
`q >= start` or `q < end`. -/
def membership_spec (start_time end_time qry_time : Nat) : Prop :=
  if start_time < end_time then start_time ≤ qry_time ∧ qry_time < end_time
  else qry_time ≥ start_time ∨ qry_time < end_time

/-- C1: the claim says the business-hours variant rewrites the short
tag value `8:00-18:00 PT` into the canonical grammar, delegates to the
core, and returns match (true) at Wednesday 09:00 Pacific.  The code
does neither: BusinessHours.process_resource_schedule returns False
unconditionally (its rewrite/delegation body is commented out), and
BusinessHours.parse raises AttributeError on this very value, so the
per-resource evaluation returns no-match (the tag value reaches
__call__ lowercased by get_tag_value). -/
theorem c1_businesshours_returns_false :
    businesshours_call true (some ("8:00-18:00 pt")) =
      CallOutcome.mk false false true false ∧
    bh_process_resource_schedule ("8:00-18:00 pt") =
      Except.error PyExn.attributeError := by
  exact ⟨by decide, by decide⟩

/-- C2: the claim (and the comment inside parse_resource_schedule) says
a group with fewer than 2 or more than 3 comma-separated fields is
rejected.  The guard `3 > tokens_count < 2` is a Python chained
comparison equivalent to `tokens_count < 2`, so a four-field group such
as `(m,10,30,45)` is accepted — with its explicit minute field silently
dropped (minute becomes 0) — and only the fewer-than-2 half holds. -/
theorem c2_four_field_group_accepted :
    parse_resource_schedule ("(m,10,30,45)") = some [Toggle.mk [0] 10 0] ∧
    sp_parse ("et") ("on=(m,10,30,45)") =
      some [(("on"), SVal.toggles [Toggle.mk [0] 10 0]), (("tz"), SVal.str ("et"))] ∧
    parse_resource_schedule ("(m)") = none := by
  exact ⟨by decide, by decide, by decide⟩

/-- C3: the claim (and the docstring of BusinessHours.parse) says the
well-formed short form `8:00-18:00 PT` yields BHParsed(8, 18, 'pt') and
only FilterValidationError escapes on malformed input.  The
comprehension on line 134 builds the pair of the first two characters
of each piece, so `bh_range` is the tuple `('8', ':')` and
`bh_range.split("-")` raises AttributeError, which `except ValueError`
does not catch. -/
theorem c3_bh_parse_attribute_error :
    bh_parse ("8:00-18:00 PT") = Except.error PyExn.attributeError ∧
    (∀ p : BHParsed, bh_parse ("8:00-18:00 PT") ≠ Except.ok p) := by
  have h : bh_parse ("8:00-18:00 PT") = Except.error PyExn.attributeError := by decide
  exact ⟨h, fun p hp => by rw [h] at hp; exact Except.noConfusion hp⟩

/-- C4 (counterexample): the claim says two distinct on-toggles on the
same weekday (on (m,6) and (m,12)) yield a Monday list with two start
entries; the code yields a single entry. -/
theorem c4_two_toggles_counterexample :
    ¬ ((get_ranges [Toggle.mk [0] 6 0, Toggle.mk [0] 12 0] []).map
        (fun rv => (rvGet rv 0).length) = some 2) := by decide

/-- C4 (amended): a `{start}` entry is appended only when the weekday's
list is empty; a later on-toggle on the same weekday overwrites the
start of every existing entry instead of appending, so a schedule with
two on-toggles on the same day yields one entry carrying the second
toggle's time. -/
theorem c4_same_day_toggle_overwrites (d h1 m1 h2 m2 : Nat)
    (hh1 : h1 < 24) (hm1 : m1 < 60) (hh2 : h2 < 24) (hm2 : m2 < 60) :
    get_ranges [Toggle.mk [d] h1 m1, Toggle.mk [d] h2 m2] [] =
      some [(d, [RangeEntry.mk (some (h2 * 60 + m2)) none])] := by
  simp [get_ranges, parse_toggles, parse_toggles_days, strptimeHM, hh1, hm1, hh2, hm2,
        upd_entries, rvGet, dictSet, List.lookup]

/-- C4 (witness): the amended statement at on=[(m,6),(m,12)]. -/
theorem c4_same_day_toggle_overwrites_witness :
    get_ranges [Toggle.mk [0] 6 0, Toggle.mk [0] 12 0] [] =
      some [(0, [RangeEntry.mk (some 720) none])] :=
  c4_same_day_toggle_overwrites 0 6 0 12 0 (by decide) (by decide) (by decide) (by decide)

/-- C5 (counterexample): the claim says enabled_count is incremented iff
the tag value yields a schedule that parses and whose timezone
resolves.  The tag value `on=(m-f)` fails to parse (and is recorded as
a parse error), yet enabled_count is still incremented, because the
increment happens before process_resource_schedule runs. -/
theorem c5_enabled_count_counterexample :
    (time_filter_call ("on") true onhour_default_schedule ("et") wednesday_nine_clock
        (some ("on=(m-f)"))) = CallOutcome.mk false false true true ∧
    sp_parse ("et") ("on=(m-f)") = none := by
  exact ⟨by decide, by decide⟩

/-- C5 (amended): enabled_count counts the resources that were not
opted out: it is incremented exactly when a tag value is available
(tag present, or absent in opt-out mode where it defaults to the empty
string) and differs from the `off` sentinel — regardless of whether the
schedule parses or its timezone resolves. -/
theorem c5_enabled_count_semantics (o : Bool) (prs : String → Option (Bool × Bool))
    (v? : Option String) :
    (time_call o prs v?).enabled_inc = (!(v?.getD ("") == ("off")) && (v?.isSome || o)) := by
  have hoff : ((("") : String) == ("off")) = false := rfl
  cases v? with
  | none =>
    cases o with
    | false => simp [time_call]
    | true =>
      cases h : prs ("") with
      | none => simp [time_call, time_call_tagged, hoff, h]
      | some p => cases p; simp [time_call, time_call_tagged, hoff, h]
  | some v =>
    cases hb : (v == ("off")) with
    | true => simp [time_call, time_call_tagged, hb]
    | false =>
      cases h : prs v with
      | none => simp [time_call, time_call_tagged, hb, h]
      | some p => cases p; simp [time_call, time_call_tagged, hb, h]

/-- C6: day-range expansion: `m-f` gives Monday through Friday, `f-m`
wraps around the weekend, and any single-day token in the day map
yields the corresponding one-element list. -/
theorem c6_day_range_expansion :
    expand_day_range ("m-f") = some [0, 1, 2, 3, 4] ∧
    expand_day_range ("f-m") = some [4, 5, 6, 0] ∧
    expand_day_range ("u") = some [6] ∧
    (∀ (s : String) (n : Nat), dayMap s = some n → expand_day_range s = some [n]) := by
  refine ⟨by decide, by decide, by decide, ?_⟩
  intro s n h
  simp [expand_day_range, h]

/-- C6 (witness): the single-day clause at `w`. -/
theorem c6_day_range_expansion_witness : expand_day_range ("w") = some [2] :=
  c6_day_range_expansion.2.2.2 ("w") 2 (by decide)

/-- C7: interval membership agrees with the specification's formula —
`start <= q < end` when the interval does not cross midnight, and
`q >= start or q < end` when it does — and on the 22:00-06:00 interval
it holds at 23:30 and 05:00 and fails at 12:00 (times in minutes). -/
theorem c7_midnight_crossing_membership :
    (∀ s e q : Nat, is_time_in_time_period s e q = true ↔ membership_spec s e q) ∧
    is_time_in_time_period 1320 360 1410 = true ∧
    is_time_in_time_period 1320 360 300 = true ∧
    is_time_in_time_period 1320 360 720 = false := by
  refine ⟨?_, by decide, by decide, by decide⟩
  intro s e q
  by_cases h : s < e <;> simp [is_time_in_time_period, membership_spec, h]

/-- C8: a tag value equal to the `off` sentinel is recorded in
opted_out and yields no-match before any schedule processing runs —
for every configured time_type of the core filter, and indeed for every
per-variant processing procedure (which covers the business-hours
variant as well). -/
theorem c8_off_sentinel :
    (∀ (time_type : String) (opt_out : Bool) (dsched : Sched) (dtz : String)
        (clock : String → Now),
      time_filter_call time_type opt_out dsched dtz clock (some ("off")) =
        CallOutcome.mk false true false false) ∧
    (∀ (opt_out : Bool) (prs : String → Option (Bool × Bool)),
      time_call opt_out prs (some ("off")) = CallOutcome.mk false true false false) := by
  have hoff : ((("off") : String) == ("off")) = true := rfl
  exact ⟨fun tt o d z c => by simp [time_filter_call, time_call, time_call_tagged, hoff],
         fun o prs => by simp [time_call, time_call_tagged, hoff]⟩

/-- C9: against the same range view (same schedule toggles) and the
same instant, the `off` time_type returns exactly the negation of the
`on` time_type, including when the evaluation raises (both raise). -/
theorem c9_offhour_onhour_complement (onT offT : List Toggle) (now : Now) :
    process_schedule_outcome ("off") onT offT now =
      (process_schedule_outcome ("on") onT offT now).map (fun b => !b) := by
  have h1 : ((("off") : String) == ("on")) = false := rfl
  have h2 : ((("on") : String) == ("on")) = true := rfl
  unfold process_schedule_outcome
  cases hr : get_ranges onT offT with
  | none => simp [hr]
  | some rv =>
    cases hm : match_range now rv with
    | none => simp [hr, hm]
    | some m => simp [hr, hm, h1, h2]

/-- C10: in day-range expansion, dash-separated tokens that are not
valid day letters are dropped before the two-endpoint check: `m-x-f`
expands exactly as `m-f` does, any non-single-day string with exactly
two valid tokens is accepted, and rejection happens precisely when the
string is not a single day and its valid-token count differs from
two. -/
theorem c10_invalid_day_tokens_dropped :
    expand_day_range ("m-x-f") = some [0, 1, 2, 3, 4] ∧
    (∀ s : String, dayMap s = none →
      ((strSplitOn ("-") s).filterMap dayMap).length = 2 → expand_day_range s ≠ none) ∧
    (∀ s : String, expand_day_range s = none ↔
      (dayMap s = none ∧ ((strSplitOn ("-") s).filterMap dayMap).length ≠ 2)) := by
  refine ⟨by decide, ?_, ?_⟩
  · intro s hnone hlen
    rcases hl : (strSplitOn ("-") s).filterMap dayMap with _ | ⟨a, _ | ⟨b, _ | ⟨c, t⟩⟩⟩
    · simp [hl] at hlen
    · simp [hl] at hlen
    · simp [expand_day_range, hnone, hl]
    · rw [hl] at hlen
      simp only [List.length_cons] at hlen
      omega
  · intro s
    cases hd : dayMap s with
    | some d => simp [expand_day_range, hd]
    | none =>
      rcases hl : (strSplitOn ("-") s).filterMap dayMap with _ | ⟨a, _ | ⟨b, _ | ⟨c, t⟩⟩⟩ <;>
        simp [expand_day_range, hd, hl]

/-- C10 (witness): the accepted-with-two-valid-tokens clause at
`m-x-f`. -/
theorem c10_invalid_day_tokens_dropped_witness : expand_day_range ("m-x-f") ≠ none :=
  c10_invalid_day_tokens_dropped.2.1 ("m-x-f") (by decide) (by decide)
